import Mathlib

/-!
Verification of the match-scoring engine of the picture-perfect-finds
lost-and-found application.

The repository contains two revisions of the matcher:

* `src/src/services/lostFoundService.ts` ("revision A"): an inline scoring
  loop inside `findPotentialMatches` (category +40, labels ×15, color +10,
  object type +20, linear date decay, location substring +15), a confidence
  floor of 40, a stable descending sort, and `slice(0, 5)`.
* `src/unnamed/part_004`, lines 409-805 ("revision B"): a separate
  `calculateMatchScore` (category +30 case-insensitive, title/description
  word overlap, exact location match, stepped date decay, metadata bonuses),
  a confidence floor of 50 and no truncation.

Both revisions operate on the TypeScript type `ItemDetails` from
`src/src/types/lost-found.ts` (re-exported there as `LostFoundItem`), which
carries both the camelCase fields read by revision A and the snake_case
fields read by revision B.

Modelling conventions of this shallow embedding:

* TypeScript strings are Lean `String`s (in this toolchain a `String` wraps
  a `List Char`, so all string functions reduce inside the kernel);
  `toLowerCase` is `jsToLower`, a character-wise ASCII lowercasing (the
  repository only stores ASCII text; core's `String.toLower` is
  extensionally the same but is defined by well-founded recursion and so
  does not reduce inside the kernel).
* `s.split(/\s+/)` is `jsSplitWs`, including JavaScript's edge cases
  (an empty string yields `[""]`; leading/trailing whitespace yields empty
  fragments).
* `hay.includes(needle)` is `strIncludes`.
* Nullable / optional fields are `Option`s; JavaScript `x || d` string
  defaulting (where `""` is falsy) is `jsOrStr`, and JavaScript truthiness
  of a nullable string is `truthyStr`.
* The `date` field holds a calendar date string such as "2023-07-15";
  `new Date(...)` parses it to midnight UTC, so the millisecond arithmetic
  of both revisions reduces to whole-day differences.  We model a parsed
  date as `Option Int` (days since the epoch), with `none` for an
  unparseable string, which contributes zero proximity in both revisions
  (NaN comparisons are false in JavaScript; revision B also wraps the
  computation in a try/catch).
* `Array.prototype.sort` (guaranteed stable since ES2019) with comparator
  `(a, b) => keyB - keyA` is modelled by `List.insertionSort` with the
  relation `fun a b => key b ≤ key a`: a stable sort for a total preorder
  has a unique result, and Mathlib's `insertionSort` is exactly that stable
  sort (and, unlike core's `mergeSort`, reduces inside the kernel).
* The Supabase queries surrounding the matcher are I/O performed by the
  caller; the pure cores `findPotentialMatchesA` / `findPotentialMatchesB`
  take the already-fetched candidate pool as a list, exactly as the
  in-memory part of each `findPotentialMatches` does.
-/

namespace LostFound

/-- Tests whether `needle` occurs at the head of `hay` (character lists). -/
def listStartsWithCL : List Char → List Char → Bool
  | _, [] => true
  | [], _ :: _ => false
  | a :: as, b :: bs => a == b && listStartsWithCL as bs

/-- Tests whether `needle` occurs anywhere inside `hay` (character lists). -/
def listContainsCL : List Char → List Char → Bool
  | [], needle => needle.isEmpty
  | c :: t, needle => listStartsWithCL (c :: t) needle || listContainsCL t needle

/-- Character-wise lowercasing, the model of `toLowerCase` on the ASCII
text this repository stores. -/
def jsToLower (s : String) : String :=
  ⟨s.data.map Char.toLower⟩

/-- Model of JavaScript `hay.includes(needle)` substring search. -/
def strIncludes (hay needle : String) : Bool :=
  listContainsCL hay.data needle.data

/-- Splits a character list at maximal whitespace runs, keeping the empty
fragments JavaScript produces for leading/trailing whitespace and for the
empty string. -/
def splitWsRuns : List Char → List (List Char)
  | [] => [[]]
  | c :: cs =>
    if c.isWhitespace then
      match cs with
      | c2 :: _ => if c2.isWhitespace then splitWsRuns cs else [] :: splitWsRuns cs
      | [] => [] :: splitWsRuns cs
    else
      match splitWsRuns cs with
      | t :: ts => (c :: t) :: ts
      | [] => [[c]]

/-- Model of JavaScript `s.split(/\s+/)`. -/
def jsSplitWs (s : String) : List String :=
  (splitWsRuns s.data).map (fun l => ⟨l⟩)

/-- Model of JavaScript `o || d` for a nullable string `o`: both `null` and
the falsy `""` fall back to the default. -/
def jsOrStr : Option String → String → String
  | some s, d => if s = "" then d else s
  | none, d => d

/-- JavaScript truthiness of a nullable string: `null` and `""` are falsy. -/
def truthyStr : Option String → Bool
  | some s => !(s = "" : Bool)
  | none => false

/-- Result of `extractImageMetadata` in `lostFoundService.ts`. -/
structure ImageMetadata where
  labels : List String
  colorProfile : String
  objectType : String
deriving DecidableEq

/-- Accumulates the label pushes and `objectType` assignments of
`extractImageMetadata` in source order (later keyword groups overwrite the
object type, labels accumulate). -/
def extractObjectPass (url : String) : List String × String :=
  let s0 : List String × String := ([], "item")
  let s1 := if strIncludes url "cat" || strIncludes url "pet" then
      (s0.1 ++ ["cat", "pet", "animal"], "animal") else s0
  let s2 := if strIncludes url "dog" then
      (s1.1 ++ ["dog", "pet", "animal"], "animal") else s1
  let s3 := if strIncludes url "phone" || strIncludes url "mobile" then
      (s2.1 ++ ["phone", "mobile", "electronics", "device"], "electronics") else s2
  let s4 := if strIncludes url "wallet" || strIncludes url "purse" then
      (s3.1 ++ ["wallet", "money", "personal"], "personal") else s3
  let s5 := if strIncludes url "key" then
      (s4.1 ++ ["key", "access", "personal"], "personal") else s4
  s5

/-- Color-profile keyword chain of `extractImageMetadata`; note that the
no-match default of the chain is `"mixed"` (the initial `"unknown"` is
overwritten on every path of the if/else chain). -/
def extractColorProfile (url : String) : String :=
  if strIncludes url "black" then "dark"
  else if strIncludes url "white" then "light"
  else if strIncludes url "blue" then "cool"
  else if strIncludes url "red" || strIncludes url "orange" then "warm"
  else if strIncludes url "green" then "natural"
  else "mixed"

/-- Model of `extractImageMetadata` (`lostFoundService.ts`, lines 33-93).
The function lowercases the URL, scans keyword tables for labels and an
object type, picks a color profile, and falls back to the generic labels
when no label keyword matched.  The `catch` branch of the source is dead
code for the pure string operations modelled here, so the function is
total. -/
def extractImageMetadata (imageUrl : String) : ImageMetadata :=
  let url := jsToLower imageUrl
  let pass := extractObjectPass url
  let labels := if pass.1.isEmpty then ["item", "object", "lost-found"] else pass.1
  { labels := labels, colorProfile := extractColorProfile url, objectType := pass.2 }

/-- Item status, `'lost' | 'found'` in `src/src/types/lost-found.ts`. -/
inductive ItemStatus where
  | lost
  | found
deriving DecidableEq

/-- Model of the TypeScript interface `ItemDetails` from
`src/src/types/lost-found.ts` (also exported there as `LostFoundItem`).
It carries both the camelCase fields used by revision A and the snake_case
fields used by revision B, exactly as the TypeScript type does.  Optional
(`?`) and nullable fields are `Option`s; `date` is the parsed calendar day
(see the module docstring). -/
structure ItemDetails where
  id : String
  status : ItemStatus
  title : String
  description : String
  category : String
  location : String
  date : Option Int
  imageUrl : String
  contactEmail : Option String
  contactPhone : Option String
  matchesIds : Option (List String)  -- the `matches` field of the source (`matches` is a Lean keyword)
  isMatched : Option Bool
  matchConfidence : Option Nat
  imageLabels : Option (List String)
  colorProfile : Option String
  objectType : Option String
  created_at : Option String
  is_matched : Option Bool
  match_confidence : Option Nat
  color_profile : Option String
  object_type : Option String
  image_labels : Option (List String)
deriving DecidableEq

/-- Alias mirroring `export type LostFoundItem = ItemDetails` in
`src/src/types/lost-found.ts`. -/
abbrev LostFoundItem := ItemDetails

/-! ### Revision A: the inline scorer of `src/src/services/lostFoundService.ts` -/

/-- Category term of revision A (line 140): `potentialMatch.category ===
item.category` — an exact, case-SENSITIVE string comparison. -/
def categoryScoreA (item pm : ItemDetails) : Nat :=
  if pm.category = item.category then 40 else 0

/-- Label-overlap term of revision A (lines 145-150): each element of the
query metadata's label list found in the candidate's labels adds 15. -/
def labelsScoreA (meta : ImageMetadata) (pm : ItemDetails) : Nat :=
  (meta.labels.filter (fun label => decide (label ∈ pm.imageLabels.getD []))).length * 15

/-- Color-profile term of revision A (lines 153-155). -/
def colorScoreA (meta : ImageMetadata) (pm : ItemDetails) : Nat :=
  if pm.colorProfile = some meta.colorProfile then 10 else 0

/-- Object-type term of revision A (lines 158-160). -/
def objectScoreA (meta : ImageMetadata) (pm : ItemDetails) : Nat :=
  if pm.objectType = some meta.objectType then 20 else 0

/-- Date-proximity term of revision A (lines 162-171): within a 7-day
window, `Math.max(0, 10 - daysDifference)` points (the subtraction on `Nat`
realises the `max`); an unparseable date makes every comparison on NaN
false, hence zero points. -/
def revADateScore : Option Int → Option Int → Nat
  | some d1, some d2 =>
    if (d1 - d2).natAbs ≤ 7 then 10 - (d1 - d2).natAbs else 0
  | _, _ => 0

/-- Location term of revision A (lines 173-177): case-insensitive substring
containment in either direction. -/
def locationScoreA (item pm : ItemDetails) : Nat :=
  if strIncludes (jsToLower pm.location) (jsToLower item.location)
      || strIncludes (jsToLower item.location) (jsToLower pm.location) then 15 else 0

/-- Sum of all revision-A score terms after the category one, in source
order (labels, color, object type, date, location). -/
def restOfScoreA (item : ItemDetails) (meta : ImageMetadata) (pm : ItemDetails) : Nat :=
  labelsScoreA meta pm + colorScoreA meta pm + objectScoreA meta pm
    + revADateScore item.date pm.date + locationScoreA item pm

/-- Unclamped revision-A score of one candidate (the sequential `score +=`
accumulation of lines 137-177). -/
def revAScore (item : ItemDetails) (meta : ImageMetadata) (pm : ItemDetails) : Nat :=
  categoryScoreA item pm + restOfScoreA item meta pm

/-- Clamp of line 181: `matchConfidence: score > 100 ? 100 : score`. -/
def matchConfidenceA (item : ItemDetails) (meta : ImageMetadata) (pm : ItemDetails) : Nat :=
  if 100 < revAScore item meta pm then 100 else revAScore item meta pm

/-- Lines 179-182: the candidate is returned unchanged except that its
`matchConfidence` is overwritten with the clamped score. -/
def withConfidenceA (item : ItemDetails) (meta : ImageMetadata) (pm : ItemDetails) : ItemDetails :=
  { pm with matchConfidence := some (matchConfidenceA item meta pm) }

/-- Lines 102-111: the query item's metadata, with JavaScript `||` string
defaulting; when the (defaulted) label list is empty the metadata is
re-derived from the image URL by `extractImageMetadata`. -/
def queryMetadata (item : ItemDetails) : ImageMetadata :=
  let meta : ImageMetadata :=
    { labels := item.imageLabels.getD []
      colorProfile := jsOrStr item.colorProfile "unknown"
      objectType := jsOrStr item.objectType "item" }
  if meta.labels.isEmpty then extractImageMetadata item.imageUrl else meta

/-- Map-and-filter stage of revision A (lines 135-184): score every
candidate, then keep those with `matchConfidence >= 40`, in input order. -/
def scoredMatchesA (item : ItemDetails) (items : List ItemDetails) : List ItemDetails :=
  (items.map (withConfidenceA item (queryMetadata item))).filter
    (fun m => decide (40 ≤ m.matchConfidence.getD 0))

/-- Pure core of revision A's `findPotentialMatches` (lines 135-187):
score, filter at 40, stable-sort descending by `matchConfidence`, and
`slice(0, 5)`. -/
def findPotentialMatchesA (item : ItemDetails) (items : List ItemDetails) : List ItemDetails :=
  (List.insertionSort (fun a b => b.matchConfidence.getD 0 ≤ a.matchConfidence.getD 0)
    (scoredMatchesA item items)).take 5

/-! ### Revision B: `calculateMatchScore` of `src/unnamed/part_004` -/

/-- Category term of revision B (part_004 lines 594-597): case-insensitive
exact match, +30. -/
def categoryScoreB (item1 item2 : ItemDetails) : Nat :=
  if jsToLower item1.category = jsToLower item2.category then 30 else 0

/-- Title tokens of `item1` that are longer than 3 characters and occur
among `item2`'s title tokens (part_004 lines 600-604); note the filter runs
over `item1`'s token list, so repeated tokens of `item1` count repeatedly. -/
def commonTitleWords (item1 item2 : ItemDetails) : List String :=
  (jsSplitWs (jsToLower item1.title)).filter
    (fun word => decide (3 < word.length) && decide (word ∈ jsSplitWs (jsToLower item2.title)))

/-- Description analogue of `commonTitleWords` (part_004 lines 609-613). -/
def commonDescWords (item1 item2 : ItemDetails) : List String :=
  (jsSplitWs (jsToLower item1.description)).filter
    (fun word => decide (3 < word.length) && decide (word ∈ jsSplitWs (jsToLower item2.description)))

/-- Title word-overlap term of revision B (line 606): 10 points per common
long word, uncapped. -/
def titleScoreB (item1 item2 : ItemDetails) : Nat :=
  (commonTitleWords item1 item2).length * 10

/-- Description word-overlap term of revision B (line 615): 5 points per
common long word, capped at 20. -/
def descScoreB (item1 item2 : ItemDetails) : Nat :=
  min ((commonDescWords item1 item2).length * 5) 20

/-- Location term of revision B (lines 618-620): case-insensitive exact
equality, +15. -/
def locationScoreB (item1 item2 : ItemDetails) : Nat :=
  if jsToLower item1.location = jsToLower item2.location then 15 else 0

/-- Stepped date-proximity term of revision B (lines 623-634): +10 within
3 days, +5 within 7; unparseable dates contribute zero (the try/catch and
NaN comparisons of the source). -/
def revBDateScore : Option Int → Option Int → Nat
  | some d1, some d2 =>
    if (d1 - d2).natAbs ≤ 3 then 10 else if (d1 - d2).natAbs ≤ 7 then 5 else 0
  | _, _ => 0

/-- Color-profile term of revision B (lines 637-640): both fields must be
truthy and equal. -/
def colorScoreB (item1 item2 : ItemDetails) : Nat :=
  if truthyStr item1.color_profile && truthyStr item2.color_profile
      && decide (item1.color_profile = item2.color_profile) then 10 else 0

/-- Object-type term of revision B (lines 642-645). -/
def objectScoreB (item1 item2 : ItemDetails) : Nat :=
  if truthyStr item1.object_type && truthyStr item2.object_type
      && decide (item1.object_type = item2.object_type) then 15 else 0

/-- Label-overlap term of revision B (lines 647-653): when both label
arrays are non-null, 5 points per label of `item1` occurring in `item2`'s
labels, capped at 20. -/
def labelsScoreB (item1 item2 : ItemDetails) : Nat :=
  match item1.image_labels, item2.image_labels with
  | some l1, some l2 => min ((l1.filter (fun label => decide (label ∈ l2))).length * 5) 20
  | _, _ => 0

/-- Sum of all revision-B score terms after the category one, in source
order (title, description, location, date, color, object type, labels). -/
def restOfScoreB (item1 item2 : ItemDetails) : Nat :=
  titleScoreB item1 item2 + descScoreB item1 item2 + locationScoreB item1 item2
    + revBDateScore item1.date item2.date + colorScoreB item1 item2
    + objectScoreB item1 item2 + labelsScoreB item1 item2

/-- Unclamped revision-B score: the sequential `score +=` accumulation of
`calculateMatchScore` (part_004 lines 590-656). -/
def calculateMatchScoreRaw (item1 item2 : ItemDetails) : Nat :=
  categoryScoreB item1 item2 + restOfScoreB item1 item2

/-- Model of `calculateMatchScore` (part_004 line 659):
`Math.min(Math.round(score), 100)`; all contributions are integers, so
`Math.round` is the identity. -/
def calculateMatchScore (item1 item2 : ItemDetails) : Nat :=
  min (calculateMatchScoreRaw item1 item2) 100

/-- Part_004 lines 566-573: the candidate is returned unchanged except that
its `match_confidence` is overwritten with the computed score. -/
def withConfidenceB (item candidateItem : ItemDetails) : ItemDetails :=
  { candidateItem with match_confidence := some (calculateMatchScore item candidateItem) }

/-- Map-and-filter stage of revision B (lines 566-578): score every
candidate, keep those with `match_confidence >= 50`, in input order. -/
def scoredMatchesB (item : ItemDetails) (data : List ItemDetails) : List ItemDetails :=
  (data.map (withConfidenceB item)).filter
    (fun m => decide (50 ≤ m.match_confidence.getD 0))

/-- Pure core of revision B's `findPotentialMatches` (part_004 lines
562-580): empty pool short-circuits to `[]`; otherwise score, filter at 50
and stable-sort descending.  Note there is no truncation in this
revision. -/
def findPotentialMatchesB (item : ItemDetails) (data : List ItemDetails) : List ItemDetails :=
  if data.isEmpty then []
  else
    List.insertionSort (fun a b => b.match_confidence.getD 0 ≤ a.match_confidence.getD 0)
      (scoredMatchesB item data)

/-! ### Concrete items used to instantiate the theorems -/

/-- Item with every required string empty and every optional field absent;
also serves as the query with missing `category`/`title`/`description`. -/
def blankItem : ItemDetails :=
  { id := "", status := .lost, title := "", description := "", category := ""
    location := "", date := none, imageUrl := "", contactEmail := none
    contactPhone := none, matchesIds := none, isMatched := none
    matchConfidence := none, imageLabels := none, colorProfile := none
    objectType := none, created_at := none, is_matched := none
    match_confidence := none, color_profile := none, object_type := none
    image_labels := none }

/-- Candidate/query that clears both confidence floors against itself
(revision A: 40 category + 15 location = 55; revision B: 30 category +
15 location + 15 object type = 60). -/
def pairItem : ItemDetails :=
  { blankItem with category := "pets", location := "park", object_type := some "pet" }

/-- Item whose self-score exceeds 100 in both revisions (eight shared
labels alone give 120 in revision A; the revision-B terms sum to 160). -/
def richItem : ItemDetails :=
  { blankItem with
    category := "pets", title := "alpha bravo charlie delta echo"
    description := "golden fluffy spotted brown", location := "park"
    date := some 0
    imageLabels := some ["l1", "l2", "l3", "l4", "l5", "l6", "l7", "l8"]
    colorProfile := some "dark", objectType := some "pet"
    image_labels := some ["l1", "l2", "l3", "l4", "l5"]
    color_profile := some "dark", object_type := some "pet" }

/-- Item with a repeated long title token (for the symmetry analysis). -/
def dupTokenItem : ItemDetails :=
  { blankItem with title := "gold gold", category := "cata", location := "loca" }

/-- Item sharing one long title token with `dupTokenItem`, once. -/
def singleTokenItem : ItemDetails :=
  { blankItem with title := "gold", category := "catb", location := "locb" }

/-- Query whose category differs from `lowerCaseCatItem`'s only in case. -/
def upperCaseCatItem : ItemDetails :=
  { blankItem with category := "Pet", location := "aaaa" }

/-- Candidate whose category differs from `upperCaseCatItem`'s only in case. -/
def lowerCaseCatItem : ItemDetails :=
  { blankItem with category := "pet", location := "bbbb" }

/-- First of two items with identical category and identical-but-absent
object type and color profile, all other fields disjoint. -/
def absentTagsItemA : ItemDetails :=
  { blankItem with
    category := "pets", title := "aaaa", description := "cccc"
    location := "loca", date := some 0 }

/-- Second item for the absent-tags pair (30 days apart, disjoint text). -/
def absentTagsItemB : ItemDetails :=
  { blankItem with
    category := "pets", title := "bbbb", description := "dddd"
    location := "locb", date := some 100 }

/-! ### General lemmas about the list operations of the pipelines -/

/-- Taking the length-of-the-left-part elements of an append recovers the
left part. -/
theorem take_len_append {α : Type} (l₁ l₂ : List α) : (l₁ ++ l₂).take l₁.length = l₁ := by
  induction l₁ with
  | nil => rfl
  | cons a t ih => simp [ih]

/-- Filtering a `take` yields exactly the corresponding initial segment of
the filtered list. -/
theorem filter_take_eq {α : Type} (p : α → Bool) (l : List α) (n : Nat) :
    (l.take n).filter p = (l.filter p).take ((l.take n).filter p).length := by
  have h : l.filter p = (l.take n).filter p ++ (l.drop n).filter p := by
    rw [← List.filter_append, List.take_append_drop]
  rw [h, take_len_append]

/-- Stability of `insertionSort` stated through `filter`: a predicate whose
holders are pairwise related (such as "has score `s`" under the sort
relation) selects the same subsequence before and after sorting. -/
theorem filter_insertionSort_eq {α : Type} (r : α → α → Prop) [DecidableRel r] (p : α → Bool)
    (hp : ∀ a b, p a = true → p b = true → r a b) (l : List α) :
    (List.insertionSort r l).filter p = l.filter p := by
  have hperm : List.Perm ((List.insertionSort r l).filter p) (l.filter p) :=
    (List.perm_insertionSort r l).filter p
  have hpair : (l.filter p).Pairwise r :=
    List.pairwise_of_forall_mem_list fun a ha b hb =>
      hp a b (List.of_mem_filter ha) (List.of_mem_filter hb)
  have hsub : List.Sublist (l.filter p) (List.insertionSort r l) :=
    List.sublist_insertionSort hpair (List.filter_sublist l)
  have hself : (l.filter p).filter p = l.filter p :=
    List.filter_eq_self.mpr fun a ha => List.of_mem_filter ha
  have hsub2 : List.Sublist (l.filter p) ((List.insertionSort r l).filter p) := by
    have h3 := hsub.filter p
    rwa [hself] at h3
  exact (hsub2.eq_of_length hperm.length_eq.symm).symm

/-- Counting the elements of a duplicate-free list `l1` that satisfy `p`
and occur in a duplicate-free list `l2` is symmetric in `l1` and `l2`. -/
theorem filter_mem_length_symm {α : Type} [DecidableEq α] {l1 l2 : List α}
    (h1 : l1.Nodup) (h2 : l2.Nodup) (p : α → Bool) :
    (l1.filter (fun w => p w && decide (w ∈ l2))).length
      = (l2.filter (fun w => p w && decide (w ∈ l1))).length := by
  have e1 : (l1.filter (fun w => p w && decide (w ∈ l2))).length
      = (l1.toFinset.filter (fun w => (p w && decide (w ∈ l2)) = true)).card := by
    rw [← List.toFinset_filter]
    exact (List.toFinset_card_of_nodup (List.Nodup.filter _ h1)).symm
  have e2 : (l2.filter (fun w => p w && decide (w ∈ l1))).length
      = (l2.toFinset.filter (fun w => (p w && decide (w ∈ l1)) = true)).card := by
    rw [← List.toFinset_filter]
    exact (List.toFinset_card_of_nodup (List.Nodup.filter _ h2)).symm
  rw [e1, e2]
  congr 1
  ext w
  simp only [Finset.mem_filter, List.mem_toFinset, Bool.and_eq_true, decide_eq_true_eq]
  tauto

/-- Variant of `filter_mem_length_symm` for a plain membership filter. -/
theorem filter_mem_length_symm' {α : Type} [DecidableEq α] {l1 l2 : List α}
    (h1 : l1.Nodup) (h2 : l2.Nodup) :
    (l1.filter (fun w => decide (w ∈ l2))).length
      = (l2.filter (fun w => decide (w ∈ l1))).length := by
  have h := filter_mem_length_symm h1 h2 (fun _ => true)
  simpa using h

/-- Absolute day difference is symmetric. -/
theorem natAbs_sub_symm (a b : Int) : (a - b).natAbs = (b - a).natAbs := by
  rw [← Int.natAbs_neg (a - b), Int.neg_sub]

/-! ### Claims -/

/-- C1: in both revisions, every entry of the ranked result of
`findPotentialMatches` carries a match confidence at least the configured
floor (40 in revision A, 50 in revision B); candidates scoring strictly
below the floor are removed by the filter stage and hence never appear. -/
theorem C1_confidence_floor :
    (∀ (q : ItemDetails) (pool : List ItemDetails) (m : ItemDetails),
        m ∈ findPotentialMatchesA q pool → 40 ≤ m.matchConfidence.getD 0)
    ∧ (∀ (q : ItemDetails) (pool : List ItemDetails) (m : ItemDetails),
        m ∈ findPotentialMatchesB q pool → 50 ≤ m.match_confidence.getD 0) := by
  constructor
  · intro q pool m hm
    unfold findPotentialMatchesA at hm
    have h2 : m ∈ scoredMatchesA q pool :=
      (List.mem_insertionSort _).mp (List.mem_of_mem_take hm)
    exact of_decide_eq_true (List.mem_filter.mp h2).2
  · intro q pool m hm
    unfold findPotentialMatchesB at hm
    by_cases h : pool.isEmpty
    · rw [if_pos h] at hm
      cases hm
    · rw [if_neg h] at hm
      have h2 : m ∈ scoredMatchesB q pool := (List.mem_insertionSort _).mp hm
      exact of_decide_eq_true (List.mem_filter.mp h2).2

/-- Witness for C1 at a concrete query and one-candidate pool (scores 55
and 60 in the two revisions). -/
theorem C1_confidence_floor_witness :
    40 ≤ ({ pairItem with matchConfidence := some 55 } : ItemDetails).matchConfidence.getD 0
    ∧ 50 ≤ ({ pairItem with match_confidence := some 60 } : ItemDetails).match_confidence.getD 0 :=
  ⟨C1_confidence_floor.1 pairItem [pairItem] _ (by decide),
   C1_confidence_floor.2 pairItem [pairItem] _ (by decide)⟩

/-- C2 counterexample: revision B's `findPotentialMatches` has no `limit`:
on a pool of six candidates that all score 60 (≥ 50) it returns all six
entries, contradicting "returns at most 5 entries". -/
theorem C2_counterexample :
    (findPotentialMatchesB pairItem (List.replicate 6 pairItem)).length = 6 := by
  decide

/-- C2 amended: only revision A truncates to 5 entries (`slice(0, 5)`);
revision B returns every candidate that clears its confidence floor of 50,
without truncation (its output has exactly the length of its filter
stage's output). -/
theorem C2_amended_truncation :
    (∀ (q : ItemDetails) (pool : List ItemDetails),
        (findPotentialMatchesA q pool).length ≤ 5)
    ∧ (∀ (q : ItemDetails) (pool : List ItemDetails),
        (findPotentialMatchesB q pool).length = (scoredMatchesB q pool).length) := by
  constructor
  · intro q pool
    unfold findPotentialMatchesA
    rw [List.length_take]
    exact Nat.min_le_left 5 _
  · intro q pool
    cases pool with
    | nil => rfl
    | cons a t =>
      unfold findPotentialMatchesB
      rw [if_neg (by simp)]
      exact List.length_insertionSort _ _

/-- C3: in both revisions, the attached match confidence is a natural
number (hence ≥ 0) at most 100, and any raw contribution sum exceeding the
bound saturates to exactly 100 (revision A clamps with `score > 100 ? 100 :
score`, revision B with `Math.min(Math.round(score), 100)`). -/
theorem C3_score_in_range :
    (∀ (item : ItemDetails) (meta : ImageMetadata) (pm : ItemDetails),
        matchConfidenceA item meta pm ≤ 100
        ∧ (100 < revAScore item meta pm → matchConfidenceA item meta pm = 100))
    ∧ (∀ (item1 item2 : ItemDetails),
        calculateMatchScore item1 item2 ≤ 100
        ∧ (100 ≤ calculateMatchScoreRaw item1 item2 →
            calculateMatchScore item1 item2 = 100)) := by
  constructor
  · intro item meta pm
    constructor
    · unfold matchConfidenceA
      by_cases h : 100 < revAScore item meta pm
      · rw [if_pos h]
      · rw [if_neg h]
        exact Nat.le_of_not_lt h
    · intro h
      unfold matchConfidenceA
      rw [if_pos h]
  · intro item1 item2
    exact ⟨Nat.min_le_right _ _, fun h => Nat.min_eq_right h⟩

/-- Witness for C3: a rich item scored against itself saturates both
clamps (raw scores 215 and 160). -/
theorem C3_score_in_range_witness :
    matchConfidenceA richItem (queryMetadata richItem) richItem = 100
    ∧ calculateMatchScore richItem richItem = 100 :=
  ⟨(C3_score_in_range.1 richItem (queryMetadata richItem) richItem).2 (by decide),
   (C3_score_in_range.2 richItem richItem).2 (by decide)⟩

/-- C4: the descending sort of both revisions is stable.  For any fixed
score `s`, the entries of the ranked output carrying score `s` are exactly
an initial segment of the score-`s` entries of the (input-ordered) filter
stage — i.e. equal-score candidates are never reordered.  In revision A
the truncation to 5 can only cut the segment short; revision B returns the
whole segment. -/
theorem C4_sort_stability :
    (∀ (q : ItemDetails) (pool : List ItemDetails) (s : Nat),
        (findPotentialMatchesA q pool).filter (fun m => decide (m.matchConfidence.getD 0 = s))
          = ((scoredMatchesA q pool).filter
              (fun m => decide (m.matchConfidence.getD 0 = s))).take
              (((findPotentialMatchesA q pool).filter
                  (fun m => decide (m.matchConfidence.getD 0 = s))).length))
    ∧ (∀ (q : ItemDetails) (pool : List ItemDetails) (s : Nat),
        (findPotentialMatchesB q pool).filter (fun m => decide (m.match_confidence.getD 0 = s))
          = (scoredMatchesB q pool).filter
              (fun m => decide (m.match_confidence.getD 0 = s))) := by
  constructor
  · intro q pool s
    unfold findPotentialMatchesA
    have hst := filter_insertionSort_eq
      (fun a b : ItemDetails => b.matchConfidence.getD 0 ≤ a.matchConfidence.getD 0)
      (fun m => decide (m.matchConfidence.getD 0 = s))
      (fun a b ha hb => by
        show b.matchConfidence.getD 0 ≤ a.matchConfidence.getD 0
        rw [of_decide_eq_true ha, of_decide_eq_true hb])
      (scoredMatchesA q pool)
    have h1 := filter_take_eq (fun m => decide (m.matchConfidence.getD 0 = s))
      (List.insertionSort (fun a b : ItemDetails =>
        b.matchConfidence.getD 0 ≤ a.matchConfidence.getD 0) (scoredMatchesA q pool)) 5
    rw [hst] at h1
    exact h1
  · intro q pool s
    cases pool with
    | nil => rfl
    | cons x t =>
      unfold findPotentialMatchesB
      rw [if_neg (by simp)]
      exact filter_insertionSort_eq _ _
        (fun a b ha hb => by
          show b.match_confidence.getD 0 ≤ a.match_confidence.getD 0
          rw [of_decide_eq_true ha, of_decide_eq_true hb])
        (scoredMatchesB q (x :: t))

/-- Category term of revision B is symmetric. -/
theorem categoryScoreB_symm (a b : ItemDetails) : categoryScoreB a b = categoryScoreB b a := by
  unfold categoryScoreB
  by_cases h : jsToLower a.category = jsToLower b.category
  · rw [if_pos h, if_pos h.symm]
  · rw [if_neg h, if_neg (fun hh => h hh.symm)]

/-- Location term of revision B is symmetric. -/
theorem locationScoreB_symm (a b : ItemDetails) : locationScoreB a b = locationScoreB b a := by
  unfold locationScoreB
  by_cases h : jsToLower a.location = jsToLower b.location
  · rw [if_pos h, if_pos h.symm]
  · rw [if_neg h, if_neg (fun hh => h hh.symm)]

/-- Stepped date term of revision B is symmetric. -/
theorem revBDateScore_symm (d1 d2 : Option Int) : revBDateScore d1 d2 = revBDateScore d2 d1 := by
  cases d1 with
  | none => cases d2 <;> rfl
  | some x =>
    cases d2 with
    | none => rfl
    | some y =>
      show (if (x - y).natAbs ≤ 3 then 10 else if (x - y).natAbs ≤ 7 then 5 else 0)
        = (if (y - x).natAbs ≤ 3 then 10 else if (y - x).natAbs ≤ 7 then 5 else 0)
      rw [natAbs_sub_symm]

/-- Truthiness-guarded equality bonus (color / object type of revision B)
is symmetric. -/
theorem truthy_eq_score_symm (x y : Option String) (pts : Nat) :
    (if truthyStr x && truthyStr y && decide (x = y) then pts else 0)
      = (if truthyStr y && truthyStr x && decide (y = x) then pts else 0) := by
  by_cases h : x = y
  · subst h
    rfl
  · have hx : (truthyStr x && truthyStr y && decide (x = y)) = false := by
      rw [decide_eq_false h, Bool.and_false]
    have hy : (truthyStr y && truthyStr x && decide (y = x)) = false := by
      rw [decide_eq_false (fun hh => h hh.symm), Bool.and_false]
    rw [hx, hy]

/-- Label term of revision B is symmetric for duplicate-free label lists. -/
theorem labelsScoreB_symm {a b : ItemDetails}
    (ha : (a.image_labels.getD []).Nodup) (hb : (b.image_labels.getD []).Nodup) :
    labelsScoreB a b = labelsScoreB b a := by
  unfold labelsScoreB
  cases hA : a.image_labels with
  | none => cases hB : b.image_labels <;> rfl
  | some l1 =>
    cases hB : b.image_labels with
    | none => rfl
    | some l2 =>
      rw [hA] at ha
      rw [hB] at hb
      have ha' : l1.Nodup := ha
      have hb' : l2.Nodup := hb
      show min ((l1.filter (fun label => decide (label ∈ l2))).length * 5) 20
        = min ((l2.filter (fun label => decide (label ∈ l1))).length * 5) 20
      rw [filter_mem_length_symm' ha' hb']

/-- C5 counterexample: `calculateMatchScore` is not symmetric once a title
token repeats — an item titled "gold gold" scores 20 against one titled
"gold", but 10 in the opposite direction (both occurrences of the repeated
token of the first argument are counted against the second). -/
theorem C5_counterexample :
    calculateMatchScore dupTokenItem singleTokenItem
      ≠ calculateMatchScore singleTokenItem dupTokenItem := by
  decide

/-- C5 amended: the score formula is symmetric in its two items (and never
consults which one is lost and which found) provided neither item carries
repeated title tokens, description tokens or labels; with repeated tokens
the word/label-overlap filters count the first argument's duplicates and
symmetry fails (see the counterexample). -/
theorem C5_amended_symmetry (a b : ItemDetails)
    (ha1 : (jsSplitWs (jsToLower a.title)).Nodup)
    (hb1 : (jsSplitWs (jsToLower b.title)).Nodup)
    (ha2 : (jsSplitWs (jsToLower a.description)).Nodup)
    (hb2 : (jsSplitWs (jsToLower b.description)).Nodup)
    (ha3 : (a.image_labels.getD []).Nodup)
    (hb3 : (b.image_labels.getD []).Nodup) :
    calculateMatchScore a b = calculateMatchScore b a := by
  have ht := filter_mem_length_symm ha1 hb1 (fun w => decide (3 < w.length))
  have hd := filter_mem_length_symm ha2 hb2 (fun w => decide (3 < w.length))
  unfold calculateMatchScore calculateMatchScoreRaw restOfScoreB titleScoreB descScoreB
    commonTitleWords commonDescWords colorScoreB objectScoreB
  rw [categoryScoreB_symm, ht, hd, locationScoreB_symm, revBDateScore_symm,
    truthy_eq_score_symm a.color_profile b.color_profile 10,
    truthy_eq_score_symm a.object_type b.object_type 15, labelsScoreB_symm ha3 hb3]

/-- Witness for the amended C5 at two concrete duplicate-free items. -/
theorem C5_amended_symmetry_witness :
    calculateMatchScore richItem pairItem = calculateMatchScore pairItem richItem :=
  C5_amended_symmetry richItem pairItem (by decide) (by decide) (by decide) (by decide)
    (by decide) (by decide)

/-- C6 counterexample: on the empty string (which matches no keyword
table) the extractor returns color profile `"mixed"`, not the claimed
`"unknown"`: the initial `"unknown"` is overwritten by the if/else chain,
whose no-match branch assigns `"mixed"` (the `"unknown"` fallback of the
`catch` handler is unreachable for these pure string operations). -/
theorem C6_counterexample :
    extractImageMetadata "" =
      { labels := ["item", "object", "lost-found"], colorProfile := "mixed", objectType := "item" }
    ∧ (extractImageMetadata "").colorProfile ≠ "unknown" :=
  ⟨rfl, by decide⟩

/-- C6 amended: for every input matching none of the keyword tables the
extractor returns the generic fallback labels `{"item","object",
"lost-found"}` and object type `"item"`, but color profile `"mixed"`; as a
total Lean function it never fails. -/
theorem C6_amended_fallback (url : String)
    (h1 : strIncludes (jsToLower url) "cat" = false)
    (h2 : strIncludes (jsToLower url) "pet" = false)
    (h3 : strIncludes (jsToLower url) "dog" = false)
    (h4 : strIncludes (jsToLower url) "phone" = false)
    (h5 : strIncludes (jsToLower url) "mobile" = false)
    (h6 : strIncludes (jsToLower url) "wallet" = false)
    (h7 : strIncludes (jsToLower url) "purse" = false)
    (h8 : strIncludes (jsToLower url) "key" = false)
    (h9 : strIncludes (jsToLower url) "black" = false)
    (h10 : strIncludes (jsToLower url) "white" = false)
    (h11 : strIncludes (jsToLower url) "blue" = false)
    (h12 : strIncludes (jsToLower url) "red" = false)
    (h13 : strIncludes (jsToLower url) "orange" = false)
    (h14 : strIncludes (jsToLower url) "green" = false) :
    extractImageMetadata url =
      { labels := ["item", "object", "lost-found"]
        colorProfile := "mixed", objectType := "item" } := by
  simp [extractImageMetadata, extractObjectPass, extractColorProfile,
    h1, h2, h3, h4, h5, h6, h7, h8, h9, h10, h11, h12, h13, h14]

/-- Witness for the amended C6 at the empty string. -/
theorem C6_amended_fallback_witness :
    extractImageMetadata "" =
      { labels := ["item", "object", "lost-found"]
        colorProfile := "mixed", objectType := "item" } :=
  C6_amended_fallback "" (by decide) (by decide) (by decide) (by decide) (by decide)
    (by decide) (by decide) (by decide) (by decide) (by decide) (by decide) (by decide)
    (by decide) (by decide)

/-- C7 counterexample: revision A compares categories with `===`, without
lowercasing.  A query with category "Pet" against a candidate with
category "pet" (all other signals non-matching) scores 0, so no category
contribution (+30 to +40) is awarded despite the categories differing only
in letter case. -/
theorem C7_counterexample :
    jsToLower upperCaseCatItem.category = jsToLower lowerCaseCatItem.category
    ∧ upperCaseCatItem.category ≠ lowerCaseCatItem.category
    ∧ revAScore upperCaseCatItem (queryMetadata upperCaseCatItem) lowerCaseCatItem = 0 := by
  decide

/-- C7 amended: only revision B judges category equality case-insensitively
(+30 after lowercasing both sides); revision A awards its +40 exactly for
literally equal category strings and awards nothing otherwise, so
categories differing only in case receive no contribution there. -/
theorem C7_amended_category_case :
    (∀ a b : ItemDetails, jsToLower a.category = jsToLower b.category →
        calculateMatchScoreRaw a b = 30 + restOfScoreB a b)
    ∧ (∀ (item : ItemDetails) (meta : ImageMetadata) (pm : ItemDetails),
        pm.category = item.category →
        revAScore item meta pm = 40 + restOfScoreA item meta pm)
    ∧ (∀ (item : ItemDetails) (meta : ImageMetadata) (pm : ItemDetails),
        pm.category ≠ item.category →
        revAScore item meta pm = restOfScoreA item meta pm) := by
  refine ⟨fun a b h => ?_, fun item meta pm h => ?_, fun item meta pm h => ?_⟩
  · unfold calculateMatchScoreRaw categoryScoreB
    rw [if_pos h]
  · unfold revAScore categoryScoreA
    rw [if_pos h]
  · unfold revAScore categoryScoreA
    rw [if_neg h, Nat.zero_add]

/-- Witness for the amended C7 at concrete items. -/
theorem C7_amended_category_case_witness :
    calculateMatchScoreRaw upperCaseCatItem lowerCaseCatItem
        = 30 + restOfScoreB upperCaseCatItem lowerCaseCatItem
    ∧ revAScore pairItem (queryMetadata pairItem) pairItem
        = 40 + restOfScoreA pairItem (queryMetadata pairItem) pairItem
    ∧ revAScore upperCaseCatItem (queryMetadata upperCaseCatItem) lowerCaseCatItem
        = restOfScoreA upperCaseCatItem (queryMetadata upperCaseCatItem) lowerCaseCatItem :=
  ⟨C7_amended_category_case.1 _ _ (by decide),
   C7_amended_category_case.2.1 _ _ _ (by decide),
   C7_amended_category_case.2.2 _ _ _ (by decide)⟩

/-- C8 counterexample: no fail-fast validation exists.  A query with empty
`category`, `title` and `description` is scored against the pool instead of
producing a validation error: against an equally blank candidate it even
scores 55 (40 for the vacuously equal empty categories, 15 for the
vacuously substring-matching empty locations) and the candidate is
returned. -/
theorem C8_counterexample :
    blankItem.category = "" ∧ blankItem.title = "" ∧ blankItem.description = ""
    ∧ findPotentialMatchesA blankItem [blankItem]
        = [{ blankItem with matchConfidence := some 55 }] := by
  decide

/-- C8 amended: the matching call performs no validation of required
fields; a query whose `category`, `title` and `description` are all empty
is scored normally — any candidate with empty category and location (and
no tags or date) scores 55 against it and is ranked and returned. -/
theorem C8_amended_no_validation (c : ItemDetails)
    (hcat : c.category = "") (hloc : c.location = "")
    (hlab : c.imageLabels = none) (hcol : c.colorProfile = none)
    (hobj : c.objectType = none) (hdate : c.date = none) :
    findPotentialMatchesA blankItem [c] = [{ c with matchConfidence := some 55 }] := by
  have hmeta : queryMetadata blankItem =
      { labels := ["item", "object", "lost-found"], colorProfile := "mixed"
        objectType := "item" } := by decide
  have hscore : revAScore blankItem (queryMetadata blankItem) c = 55 := by
    unfold revAScore restOfScoreA categoryScoreA labelsScoreA colorScoreA objectScoreA
      locationScoreA
    rw [hmeta, hcat, hloc, hlab, hcol, hobj, hdate]
    decide
  have hw : withConfidenceA blankItem (queryMetadata blankItem) c
      = { c with matchConfidence := some 55 } := by
    unfold withConfidenceA matchConfidenceA
    rw [hscore]
    rfl
  unfold findPotentialMatchesA scoredMatchesA
  rw [List.map_cons, List.map_nil, hw]
  rfl

/-- Witness for the amended C8 at a concrete blank candidate. -/
theorem C8_amended_no_validation_witness :
    findPotentialMatchesA blankItem [{ blankItem with id := "c1" }]
      = [{ blankItem with id := "c1", matchConfidence := some 55 }] :=
  C8_amended_no_validation { blankItem with id := "c1" } rfl rfl rfl rfl rfl rfl

/-- C9 counterexample: two items with identical category and identical —
but absent — object type and color profile, all other fields disjoint,
score only 30 (the category bonus): revision B's guards treat a shared
`null` (or `""`) `object_type` / `color_profile` as no match, so the
claimed lower bound of 55 fails. -/
theorem C9_counterexample :
    absentTagsItemA.category = absentTagsItemB.category
    ∧ absentTagsItemA.object_type = absentTagsItemB.object_type
    ∧ absentTagsItemA.color_profile = absentTagsItemB.color_profile
    ∧ commonTitleWords absentTagsItemA absentTagsItemB = []
    ∧ commonDescWords absentTagsItemA absentTagsItemB = []
    ∧ locationScoreB absentTagsItemA absentTagsItemB = 0
    ∧ revBDateScore absentTagsItemA.date absentTagsItemB.date = 0
    ∧ labelsScoreB absentTagsItemA absentTagsItemB = 0
    ∧ calculateMatchScore absentTagsItemA absentTagsItemB = 30 := by
  decide

/-- C9 amended: when the shared `objectType` and `colorProfile` are
actually present (non-null, non-empty) and the categories are equal, the
three equality signals alone force `Score(A,B) ≥ 30 + 15 + 10 = 55`
(disjointness of the remaining fields is not needed for the lower
bound, since every contribution is non-negative). -/
theorem C9_amended_lower_bound (a b : ItemDetails)
    (hcat : a.category = b.category)
    (hobj : a.object_type = b.object_type) (hobjt : truthyStr a.object_type = true)
    (hcol : a.color_profile = b.color_profile) (hcolt : truthyStr a.color_profile = true) :
    55 ≤ calculateMatchScore a b := by
  have h30 : categoryScoreB a b = 30 := by
    unfold categoryScoreB
    rw [if_pos (by rw [hcat])]
  have h10 : colorScoreB a b = 10 := by
    unfold colorScoreB
    rw [← hcol]
    simp [hcolt]
  have h15 : objectScoreB a b = 15 := by
    unfold objectScoreB
    rw [← hobj]
    simp [hobjt]
  have hraw : 55 ≤ calculateMatchScoreRaw a b := by
    unfold calculateMatchScoreRaw restOfScoreB
    rw [h30, h10, h15]
    omega
  exact Nat.le_min.mpr ⟨hraw, by norm_num⟩

/-- Witness for the amended C9: an item with present tags against itself. -/
theorem C9_amended_lower_bound_witness : 55 ≤ calculateMatchScore richItem richItem :=
  C9_amended_lower_bound richItem richItem rfl rfl (by decide) rfl (by decide)

/-- C10: both pure cores are functions of their inputs (no mutation is
possible in this embedding, matching the source's spread copies), and every
returned entry is its corresponding input candidate with every field
unchanged except the match-confidence field, overwritten with that
candidate's computed (clamped) score. -/
theorem C10_output_frame :
    (∀ (q : ItemDetails) (pool : List ItemDetails) (m : ItemDetails),
        m ∈ findPotentialMatchesA q pool →
          ∃ c ∈ pool,
            m = { c with matchConfidence := some (matchConfidenceA q (queryMetadata q) c) })
    ∧ (∀ (q : ItemDetails) (pool : List ItemDetails) (m : ItemDetails),
        m ∈ findPotentialMatchesB q pool →
          ∃ c ∈ pool,
            m = { c with match_confidence := some (calculateMatchScore q c) }) := by
  constructor
  · intro q pool m hm
    unfold findPotentialMatchesA at hm
    have h2 := (List.mem_insertionSort _).mp (List.mem_of_mem_take hm)
    obtain ⟨c, hc, hcm⟩ := List.mem_map.mp (List.mem_filter.mp h2).1
    exact ⟨c, hc, hcm.symm⟩
  · intro q pool m hm
    unfold findPotentialMatchesB at hm
    by_cases h : pool.isEmpty
    · rw [if_pos h] at hm
      cases hm
    · rw [if_neg h] at hm
      have h2 := (List.mem_insertionSort _).mp hm
      obtain ⟨c, hc, hcm⟩ := List.mem_map.mp (List.mem_filter.mp h2).1
      exact ⟨c, hc, hcm.symm⟩

/-- Witness for C10 at a concrete query and pool for both revisions. -/
theorem C10_output_frame_witness :
    (∃ c ∈ [pairItem], ({ pairItem with matchConfidence := some 55 } : ItemDetails)
        = { c with matchConfidence := some (matchConfidenceA pairItem (queryMetadata pairItem) c) })
    ∧ (∃ c ∈ [pairItem], ({ pairItem with match_confidence := some 60 } : ItemDetails)
        = { c with match_confidence := some (calculateMatchScore pairItem c) }) :=
  ⟨C10_output_frame.1 pairItem [pairItem] _ (by decide),
   C10_output_frame.2 pairItem [pairItem] _ (by decide)⟩

end LostFound
